import Mathlib

/-!
Shallow embedding of `src/ETL.py` (csopenal/ETL_definitiu): an
extract-transform-load pipeline over randomuser.me data.  JSON bodies are
modelled by the inductive `Json`; pandas DataFrames by `DataFrame` (an
ordered column list plus rows as association lists); `pd.json_normalize`,
`pd.cut`, `Series.mean`, `Series.value_counts`, `groupby(...).mean()` and
`Series.round` by the correspondingly named Lean functions.  Python
exceptions are modelled by `PyFault`; the `transform` function returns a
`TransformResult` distinguishing its two `return None` branches (each of
which prints its own error message) from a normal DataFrame and from an
unhandled exception.
-/

set_option autoImplicit false

namespace ETL

mutual

/-- JSON values as parsed from the API body (`response.json()`).  `null`
also stands for pandas `NaN` cells inside DataFrames.  Objects and
arrays carry their own (mutually inductive) spine so that all functions
over `Json` are structurally recursive. -/
inductive Json where
  | null : Json
  | bool : Bool → Json
  | num : Int → Json
  | str : String → Json
  | arr : JsonArray → Json
  | obj : JsonFields → Json
deriving DecidableEq

/-- The elements of a JSON array. -/
inductive JsonArray where
  | nil : JsonArray
  | cons : Json → JsonArray → JsonArray
deriving DecidableEq

/-- The key/value fields of a JSON object. -/
inductive JsonFields where
  | nil : JsonFields
  | cons : String → Json → JsonFields → JsonFields
deriving DecidableEq

end

/-- The elements of a JSON array, as a list. -/
def JsonArray.toList : JsonArray → List Json
  | .nil => []
  | .cons v rest => v :: JsonArray.toList rest

/-- Build a JSON array from a list. -/
def jarr : List Json → JsonArray
  | [] => .nil
  | v :: rest => .cons v (jarr rest)

/-- Build JSON object fields from a list of pairs. -/
def jfields : List (String × Json) → JsonFields
  | [] => .nil
  | (k, v) :: rest => .cons k v (jfields rest)

/-- Build a JSON object from a list of pairs. -/
def jobj (l : List (String × Json)) : Json := Json.obj (jfields l)

/-- A DataFrame row: an association list from column name to cell value.
A missing key is a `NaN` cell, as is an explicit `Json.null`. -/
abbrev Row := List (String × Json)

mutual

/-- One step of `pandas.json_normalize`'s record flattening
(`nested_to_record`): a nested object contributes dotted keys
(`name.first`); arrays and scalars are kept as values. -/
def flattenEntry (k : String) : Json → Row
  | Json.obj g => (flattenFields g).map (fun p => (k ++ "." ++ p.1, p.2))
  | v => [(k, v)]

/-- Flatten the fields of one record. -/
def flattenFields : JsonFields → Row
  | JsonFields.nil => []
  | JsonFields.cons k v rest => flattenEntry k v ++ flattenFields rest

end

/-- Flatten one record (a JSON object) into a row. -/
def flattenRecord : Json → Row
  | Json.obj f => flattenFields f
  | j => [("", j)]

/-- A pandas DataFrame: ordered column names and rows. -/
structure DataFrame where
  columns : List String
  rows : List Row
deriving DecidableEq

/-- Union of the keys of all rows, in first-appearance order — the column
set `pd.json_normalize` / the DataFrame constructor produces from a list
of flattened records. -/
def addCols (acc : List String) (r : Row) : List String :=
  acc ++ (r.map Prod.fst).filter (fun k => ¬ (k ∈ acc))

def colUnion (rows : List Row) : List String :=
  rows.foldl addCols []

/-- Python exceptions that the modelled pandas calls can raise. -/
inductive PyFault where
  | notImplementedError : PyFault
  | keyError : String → PyFault
  | typeError : PyFault
  | attributeError : PyFault
deriving Repr, DecidableEq

def isObj : Json → Bool
  | Json.obj _ => true
  | _ => false

/-- `pd.json_normalize(data)`: a dict becomes a one-row frame; a list of
dicts becomes one row per record (an empty list an empty frame); `None`
and other scalars raise `NotImplementedError`; a list with a non-dict
record fails while flattening. -/
def jsonNormalize : Json → Except PyFault DataFrame
  | Json.arr a =>
      let recs := a.toList
      if recs.all isObj then
        let rws := recs.map flattenRecord
        .ok ⟨colUnion rws, rws⟩
      else .error .attributeError
  | Json.obj f => .ok ⟨colUnion [flattenFields f], [flattenFields f]⟩
  | _ => .error .notImplementedError

/-- `RENAME_COLS` from `transform` (a Python dict; key order is insertion
order). -/
def RENAME_COLS : List (String × String) :=
  [("gender", "Genero"), ("name.first", "Nombre"), ("name.last", "Apellido"),
   ("nat", "Nacionalidad"), ("dob.age", "Edad"), ("location.country", "Pais")]

/-- `BINS = [18, 30, 40, 50, 60, 70, 100]`. -/
def BINS : List Int := [18, 30, 40, 50, 60, 70, 100]

/-- `LABELS = ['18-29', '30-39', '40-49', '50-59', '60-69', '70+']`. -/
def LABELS : List String := ["18-29", "30-39", "40-49", "50-59", "60-69", "70+"]

/-- Index of the half-open interval `[edges i, edges (i+1))` containing
`x`, if any — the bin search of `pd.cut(..., right=False)`. -/
def findBin (edges : List Int) (x : Int) : Option Nat :=
  match edges with
  | [] => none
  | [_] => none
  | a :: b :: rest =>
      if a ≤ x ∧ x < b then some 0
      else (findBin (b :: rest) x).map (· + 1)

/-- `pd.cut` of a single value against `bins`/`labels` with
`right=False`: the label of the containing bin, `none` (`NaN`) when the
value lies outside every bin. -/
def pdCut (bins : List Int) (labels : List String) (x : Int) : Option String :=
  (findBin bins x).bind (fun i => labels.get? i)

/-- The age-binning applied on line 83 of `ETL.py`. -/
def rangoEdad (age : Int) : Option String :=
  pdCut BINS LABELS age

def renameOf (k : String) : String :=
  (RENAME_COLS.lookup k).getD k

/-- `df[cols].rename(columns=RENAME_COLS).copy()`: keep the columns of
`cols` in that order, renamed; each row keeps the corresponding cells
(`Json.null` = `NaN` for a key the row lacks). -/
def selectRename (df : DataFrame) (cols : List String) : DataFrame :=
  { columns := cols.map renameOf,
    rows := df.rows.map (fun r => cols.map (fun c => (renameOf c, (r.lookup c).getD Json.null))) }

/-- `pd.cut` applied to one `Edad` cell: `NaN` stays `NaN`, a number is
binned, a non-numeric cell raises `TypeError`. -/
def cutCell : Json → Except PyFault Json
  | Json.null => .ok Json.null
  | Json.num n =>
      .ok (match rangoEdad n with
           | some l => Json.str l
           | none => Json.null)
  | _ => .error .typeError

/-- `df_clean['RangoEdad'] = pd.cut(df_clean['Edad'], ...)` (line 83):
reads the `Edad` column (`KeyError` if absent) and appends the binned
column. -/
def addRangoEdad (df : DataFrame) : Except PyFault DataFrame := do
  if "Edad" ∈ df.columns then
    let rws ← df.rows.mapM (fun r => do
      let c ← cutCell ((r.lookup "Edad").getD Json.null)
      pure (r ++ [("RangoEdad", c)]))
    pure { columns := df.columns ++ ["RangoEdad"], rows := rws }
  else .error (.keyError "Edad")

/-- Outcome of `transform` (lines 41–85): the two `return None` branches
print different messages (`no valid data` on line 46, the missing age
column message on line 71), a clean DataFrame is returned on success, and
a `fault` is an exception that propagates out of `transform` unhandled. -/
inductive TransformResult where
  | noValidData : TransformResult
  | ageColumnMissing : TransformResult
  | ok : DataFrame → TransformResult
  | fault : PyFault → TransformResult
deriving DecidableEq

/-- Whether a cell value is hashable in Python's sense: lists (JSON
arrays, which `pd.json_normalize` keeps as cell values) and dicts are
unhashable; scalars and `NaN` are hashable. -/
def hashableCell : Option Json → Bool
  | some (Json.arr _) => false
  | some (Json.obj _) => false
  | _ => true

/-- Whether every cell of column `c` is hashable. -/
def columnHashable (df : DataFrame) (c : String) : Bool :=
  df.rows.all (fun r => hashableCell (r.lookup c))

/-- `df_clean[c] = df_clean[c].astype("category")` (lines 78–80): the
column read raises `KeyError` when the column is absent; building the
categories raises `TypeError` (`unhashable type`) when a cell holds an
unhashable value such as a list; otherwise the cast does not change the
logical contents. -/
def astypeCategory (df : DataFrame) (c : String) : Except PyFault DataFrame :=
  if c ∈ df.columns then
    if columnHashable df c = true then .ok df else .error .typeError
  else .error (.keyError c)

/-- `transform(data)` from `ETL.py` lines 41–85.  `data` is the parsed
body (a Python dict, `None` on fetch failure).  Mirrors, in order: the
`not data or "results" not in data` guard; `pd.json_normalize`; the
selection of the `RENAME_COLS` columns present; the `dob.age` check; the
select+rename; the three `astype("category")` casts (which raise
`KeyError` when the column is absent and `TypeError` on unhashable
cells); and the `pd.cut` binning.
`transformNormalized` is the part of `transform` after `pd.json_normalize`
succeeded (lines 53–85). -/
def transformNormalized (df : DataFrame) : TransformResult :=
  let cols := (RENAME_COLS.map Prod.fst).filter (fun k => k ∈ df.columns)
  if "dob.age" ∈ cols then
    let dfc := selectRename df cols
    match astypeCategory dfc "Genero" with
    | .error e => .fault e
    | .ok dfc1 =>
      match astypeCategory dfc1 "Nacionalidad" with
      | .error e => .fault e
      | .ok dfc2 =>
        match astypeCategory dfc2 "Pais" with
        | .error e => .fault e
        | .ok dfc3 =>
          match addRangoEdad dfc3 with
          | .error e => .fault e
          | .ok dfr => .ok dfr
  else .ageColumnMissing

def transform (data : Option (List (String × Json))) : TransformResult :=
  match data with
  | none => .noValidData
  | some d =>
    if d.isEmpty then .noValidData
    else
      match d.lookup "results" with
      | none => .noValidData
      | some v =>
        match jsonNormalize v with
        | .error e => .fault e
        | .ok df => transformNormalized df

/-! ## Aggregator: `calculate_statistics` (lines 88–98) -/

/-- The non-`NaN` values of column `c`, in row order — what a pandas
`Series` operation with `dropna`/`skipna` semantics actually sees. -/
def nonNullCol (df : DataFrame) (c : String) : List Json :=
  df.rows.filterMap (fun r =>
    match r.lookup c with
    | some Json.null => none
    | none => none
    | some v => some v)

/-- `Series.mean()` (`skipna=True`): arithmetic mean of the numeric cells
of the column, `none` (`NaN`) when there are none. -/
def colMean (df : DataFrame) (c : String) : Option Rat :=
  let vals := df.rows.filterMap (fun r =>
    match r.lookup c with
    | some (Json.num n) => some n
    | _ => none)
  if vals.length = 0 then none
  else some ((vals.map (fun n => (n : Rat))).sum / (vals.length : Rat))

/-- Insertion of one element into a list sorted by `le` (stable). -/
def insertBy {α : Type} (le : α → α → Bool) (a : α) : List α → List α
  | [] => [a]
  | b :: bs => if le a b then a :: b :: bs else b :: insertBy le a bs

/-- Stable insertion sort by `le`. -/
def sortBy {α : Type} (le : α → α → Bool) : List α → List α
  | [] => []
  | a :: as => insertBy le a (sortBy le as)

/-- Comparator of `value_counts`'s `sort=True`: descending count. -/
def countDesc (p q : Json × Nat) : Bool := q.2 ≤ p.2

/-- `Series.value_counts()`: occurrence counts of the distinct non-`NaN`
values, sorted by descending count; `NaN` cells are dropped
(`dropna=True`). -/
def valueCounts (df : DataFrame) (c : String) : List (Json × Nat) :=
  let vs := nonNullCol df c
  sortBy countDesc (vs.dedup.map (fun v => (v, vs.count v)))

/-- Group-key ordering of `groupby`: gender keys are strings and are
grouped in sorted (category) order. -/
def jsonKeyLe : Json → Json → Bool
  | Json.str a, Json.str b => a ≤ b
  | _, _ => true

/-- The group keys of `df.groupby(c)`: distinct non-`NaN` values of the
grouping column, in sorted order. -/
def groupKeys (df : DataFrame) (c : String) : List Json :=
  sortBy jsonKeyLe (nonNullCol df c).dedup

/-- Mean of the numeric `vc` cells among the rows whose `kc` cell equals
`key` — one entry of `df.groupby(kc)[vc].mean()`. -/
def groupMean (df : DataFrame) (kc vc : String) (key : Json) : Option Rat :=
  let vals := df.rows.filterMap (fun r =>
    if r.lookup kc = some key then
      match r.lookup vc with
      | some (Json.num n) => some n
      | _ => none
    else none)
  if vals.length = 0 then none
  else some ((vals.map (fun n => (n : Rat))).sum / (vals.length : Rat))

/-- The `stats` dict built by `calculate_statistics`. -/
structure Stats where
  average_age : Option Rat
  gender_counts : List (Json × Nat)
  avg_age_by_gender : List (Json × Option Rat)
deriving DecidableEq

/-- `calculate_statistics(df_clean)` (lines 88–98): accesses the `Edad`
column (for the mean) and the `Genero` column (for `value_counts` and
`groupby`), raising `KeyError` when one is absent, and otherwise returns
the three statistics. -/
def calculate_statistics (df : DataFrame) : Except PyFault Stats :=
  if "Edad" ∈ df.columns then
    if "Genero" ∈ df.columns then
      .ok { average_age := colMean df "Edad",
            gender_counts := valueCounts df "Genero",
            avg_age_by_gender :=
              (groupKeys df "Genero").map (fun k => (k, groupMean df "Genero" "Edad" k)) }
    else .error (.keyError "Genero")
  else .error (.keyError "Edad")

/-! ## Reporter: `save_statistics_to_csv` (lines 101–139) -/

/-- Round half to even at integer precision — the rounding `numpy`
applies elementwise in `Series.round`. -/
def roundHalfEven (x : Rat) : Int :=
  let f := ⌊x⌋
  if x - (f : Rat) < 1 / 2 then f
  else if (1 : Rat) / 2 < x - (f : Rat) then f + 1
  else if f % 2 = 0 then f else f + 1

/-- `round(2)`: round to 2 decimal places (half to even). -/
def round2 (x : Rat) : Rat :=
  (roundHalfEven (x * 100) : Rat) / 100

/-- One row of the long-form statistics table
(`{"Metrica": ..., "Categoria": ..., "Valor": ...}`).  `Valor` is `none`
for a `NaN` value. -/
structure StatRow where
  Metrica : String
  Categoria : Json
  Valor : Option Rat
deriving DecidableEq

/-- `stats_list` as built on lines 105–128: the overall mean tagged
`General`, then one row per gender count, then one row per gender mean,
in the iteration order of the two series. -/
def statsList (s : Stats) : List StatRow :=
  ⟨"Edad_Media_Total", Json.str "General", s.average_age⟩ ::
  (s.gender_counts.map (fun p => ⟨"Conteo_Genero", p.1, some (p.2 : Rat)⟩) ++
   s.avg_age_by_gender.map (fun p => ⟨"Edad_Media_Genero", p.1, p.2⟩))

/-- The rows serialized by `save_statistics_to_csv` after
`stats_df["Valor"] = stats_df["Valor"].round(2)` (line 133): every value
rounded to 2 decimals (`NaN` stays `NaN`). -/
def statisticsCsvRows (s : Stats) : List StatRow :=
  (statsList s).map (fun r => { r with Valor := r.Valor.map round2 })

/-! ## Visualizer: the age-range chart series (lines 186–189) -/

/-- Number of rows whose `c` cell is the label `l`. -/
def countCell (df : DataFrame) (c : String) (l : String) : Nat :=
  df.rows.countP (fun r => r.lookup c = some (Json.str l))

/-- `value_counts()` on a categorical column with category list `cats`
(here the `pd.cut` output, whose categories are `LABELS`): one count per
category — zero-count categories included — sorted by descending count. -/
def catValueCounts (df : DataFrame) (c : String) (cats : List String)
    : List (String × Nat) :=
  sortBy (fun p q => q.2 ≤ p.2) (cats.map (fun l => (l, countCell df c l)))

/-- `.sort_index()` on a categorical index: reorder the series by the
category order `cats`. -/
def sortIndex (cats : List String) (xs : List (String × Nat)) : List (String × Nat) :=
  cats.filterMap (fun l => (xs.lookup l).map (fun n => (l, n)))

/-- `df_clean['RangoEdad'].value_counts().sort_index()` (line 187): the
series plotted by the third chart. -/
def chart3Series (df : DataFrame) : List (String × Nat) :=
  sortIndex LABELS (catValueCounts df "RangoEdad" LABELS)

/-! ## The `__main__` pipeline (lines 204–256) -/

/-- Which of the three `to_csv` calls fail when attempted (e.g. the disk
is full or the file is locked). -/
structure WriteEnv where
  rawWriteFails : Bool
  cleanWriteFails : Bool
  statsWriteFails : Bool
deriving Repr, DecidableEq

/-- Observable pipeline events, in program order. -/
inductive Event where
  | loggedFetchFailure : Event
  | wroteRawCsv : Event
  | loggedRawWriteError : Event
  | loggedTransformFailure : Event
  | wroteCleanCsv : Event
  | printedStats : Event
  | wroteStatsCsv : Event
  | loggedStatsWriteError : Event
  | madePlots : Event
  | crashedUnhandled : Event
deriving Repr, DecidableEq

/-- The raw-save block (lines 217–224): `pd.json_normalize(data["results"])`
plus `to_csv`, the whole block wrapped in `try/except` — a `KeyError` on
`data["results"]`, a normalization error or a write failure is caught and
logged. -/
def saveRawUsers (data : List (String × Json)) (env : WriteEnv) : List Event :=
  match data.lookup "results" with
  | none => [.loggedRawWriteError]
  | some v =>
    match jsonNormalize v with
    | .error _ => [.loggedRawWriteError]
    | .ok _ => if env.rawWriteFails then [.loggedRawWriteError] else [.wroteRawCsv]

/-- `save_statistics_to_csv` (lines 101–139): the whole body is wrapped
in `try/except`, so a write failure is caught and logged. -/
def saveStatisticsEvents (env : WriteEnv) : List Event :=
  if env.statsWriteFails then [.loggedStatsWriteError] else [.wroteStatsCsv]

/-- The `__main__` block after the fetch (lines 215–256).  `fetched` is
what `api_etl` returned.  Note: the clean-table write on line 233 is NOT
inside a `try/except`, so its failure is an unhandled exception; a
`fault` escaping `transform` or `calculate_statistics` is likewise
unhandled. -/
def runMain (fetched : Option (List (String × Json))) (env : WriteEnv) : List Event :=
  match fetched with
  | none => [.loggedFetchFailure]
  | some data =>
    if data.isEmpty then [.loggedFetchFailure]
    else
      let e1 := saveRawUsers data env
      match transform (some data) with
      | .fault _ => e1 ++ [.crashedUnhandled]
      | .noValidData => e1 ++ [.loggedTransformFailure]
      | .ageColumnMissing => e1 ++ [.loggedTransformFailure]
      | .ok df =>
        if env.cleanWriteFails then e1 ++ [.crashedUnhandled]
        else
          match calculate_statistics df with
          | .error _ => e1 ++ [.wroteCleanCsv, .crashedUnhandled]
          | .ok _ =>
              e1 ++ [.wroteCleanCsv, .printedStats] ++
              saveStatisticsEvents env ++ [.madePlots]

/-! ## Run environment (for the determinism claim) -/

/-- Sources of run-to-run variation a process could in principle consult.
`transform` and `calculate_statistics` never read either. -/
structure RunEnv where
  wallClock : Nat
  osRandomness : Nat
deriving Repr, DecidableEq

/-- The transform stage as run in one concrete environment. -/
def transformRun (_env : RunEnv) (data : Option (List (String × Json))) : TransformResult :=
  transform data

/-- The statistics stage as run in one concrete environment. -/
def statisticsRun (_env : RunEnv) (df : DataFrame) : Except PyFault Stats :=
  calculate_statistics df

/-! ## Helper definitions used to state properties -/

/-- The six source-column names, in `RENAME_COLS` order. -/
def sourceCols : List String := RENAME_COLS.map Prod.fst

/-- The cell `pd.cut` produces for the numeric age `n`. -/
def binnedCell (n : Int) : Json :=
  match rangoEdad n with
  | some l => Json.str l
  | none => Json.null

/-- The numeric age of a clean row (the `Edad` cell), if any. -/
def cleanRowAge (r : Row) : Option Int :=
  match r.lookup "Edad" with
  | some (Json.num n) => some n
  | _ => none

/-- The numeric age of a flattened source record (the `dob.age` cell). -/
def recAge (r : Json) : Option Int :=
  match (flattenRecord r).lookup "dob.age" with
  | some (Json.num n) => some n
  | _ => none

/-- A record as in a structurally valid API response: a JSON object
whose flattening has all six source columns, with a numeric `dob.age`
and scalar (hashable) values in the three fields that `transform` casts
to categorical — as the real API produces (gender, nationality and
country are strings there). -/
def validApiRecord (r : Json) : Bool :=
  isObj r &&
  sourceCols.all (fun k => ((flattenRecord r).lookup k).isSome) &&
  (recAge r).isSome &&
  (["gender", "nat", "location.country"] : List String).all
    (fun k => hashableCell ((flattenRecord r).lookup k))

/-- The clean row `selectRename` produces from a flattened source row
when all six source columns were selected. -/
def cleanRowOf (r : Row) : Row :=
  sourceCols.map (fun c => (renameOf c, (r.lookup c).getD Json.null))

/-- A clean row with its `RangoEdad` cell appended — what `addRangoEdad`
produces from a row whose `Edad` cell is numeric or `NaN`. -/
def appendRango (r : Row) : Row :=
  r ++ [("RangoEdad",
         match (r.lookup "Edad").getD Json.null with
         | Json.num n => binnedCell n
         | _ => Json.null)]

/-- Whether a transform outcome is a clean DataFrame. -/
def isOkResult : TransformResult → Bool
  | .ok _ => true
  | _ => false

/-- The clean DataFrame of a transform outcome, if any. -/
def cleanTableOf : TransformResult → Option DataFrame
  | .ok df => some df
  | _ => none

/-- A cell that is present and not `NaN`. -/
def cellNonNull (o : Option Json) : Bool :=
  match o with
  | some Json.null => false
  | none => false
  | some _ => true

/-- Sample records (flattened fields: full record has all six source
columns; the others drop the named ones). -/
def sampleRecordFull : Json :=
  jobj [("gender", Json.str "female"),
        ("name", jobj [("first", Json.str "Ana"), ("last", Json.str "Diaz")]),
        ("nat", Json.str "ES"),
        ("dob", jobj [("age", Json.num 30)]),
        ("location", jobj [("country", Json.str "Spain")])]

def sampleRecordNoGender : Json :=
  jobj [("name", jobj [("first", Json.str "Bob"), ("last", Json.str "Roy")]),
        ("nat", Json.str "FR"),
        ("dob", jobj [("age", Json.num 75)]),
        ("location", jobj [("country", Json.str "France")])]

def sampleRecordNoNames : Json :=
  jobj [("gender", Json.str "male"),
        ("nat", Json.str "FR"),
        ("dob", jobj [("age", Json.num 44)]),
        ("location", jobj [("country", Json.str "France")])]

def sampleRecordNoNat : Json :=
  jobj [("gender", Json.str "male"),
        ("name", jobj [("first", Json.str "Bob"), ("last", Json.str "Roy")]),
        ("dob", jobj [("age", Json.num 44)]),
        ("location", jobj [("country", Json.str "France")])]

def sampleRecordNoCountry : Json :=
  jobj [("gender", Json.str "male"),
        ("name", jobj [("first", Json.str "Bob"), ("last", Json.str "Roy")]),
        ("nat", Json.str "FR"),
        ("dob", jobj [("age", Json.num 44)])]

def sampleRecordNoAge : Json :=
  jobj [("gender", Json.str "male"),
        ("name", jobj [("first", Json.str "Bob"), ("last", Json.str "Roy")]),
        ("nat", Json.str "FR"),
        ("location", jobj [("country", Json.str "France")])]

/-- A fetched body whose `results` field holds the given records. -/
def sampleBody (rs : List Json) : List (String × Json) :=
  [("results", Json.arr (jarr rs))]

/-- The clean table `transform` produces from
`sampleBody [sampleRecordFull]`. -/
def sampleCleanDf : DataFrame :=
  ⟨["Genero", "Nombre", "Apellido", "Nacionalidad", "Edad", "Pais", "RangoEdad"],
   [[("Genero", Json.str "female"), ("Nombre", Json.str "Ana"),
     ("Apellido", Json.str "Diaz"), ("Nacionalidad", Json.str "ES"),
     ("Edad", Json.num 30), ("Pais", Json.str "Spain"),
     ("RangoEdad", Json.str "30-39")]]⟩

/-- The statistics of `sampleCleanDf`. -/
def sampleCleanStats : Stats :=
  { average_age := some 30,
    gender_counts := [(Json.str "female", 1)],
    avg_age_by_gender := [(Json.str "female", some 30)] }

/-- A small concrete clean table (one row, gender `f`, age 20). -/
def sampleDf : DataFrame :=
  ⟨["Genero", "Edad"], [[("Genero", Json.str "f"), ("Edad", Json.num 20)]]⟩

/-- The statistics of `sampleDf`. -/
def sampleStats : Stats :=
  { average_age := some 20,
    gender_counts := [(Json.str "f", 1)],
    avg_age_by_gender := [(Json.str "f", some 20)] }

end ETL

namespace ETL

/-! ## Helper lemmas -/

theorem rangoEdad_eq (age : Int) :
    rangoEdad age =
      if 18 ≤ age ∧ age < 30 then some "18-29"
      else if 30 ≤ age ∧ age < 40 then some "30-39"
      else if 40 ≤ age ∧ age < 50 then some "40-49"
      else if 50 ≤ age ∧ age < 60 then some "50-59"
      else if 60 ≤ age ∧ age < 70 then some "60-69"
      else if 70 ≤ age ∧ age < 100 then some "70+"
      else none := by
  simp only [rangoEdad, pdCut, BINS, LABELS, findBin]
  split_ifs <;> simp_all

theorem rangoEdad_isSome_iff (age : Int) :
    (rangoEdad age).isSome = true ↔ (18 ≤ age ∧ age < 100) := by
  rw [rangoEdad_eq]
  split_ifs <;> simp <;> omega

theorem rangoEdad_mem_LABELS {age : Int} {l : String}
    (h : rangoEdad age = some l) : l ∈ LABELS := by
  rw [rangoEdad_eq] at h
  split_ifs at h <;> simp_all [LABELS]

theorem lookup_cons {γ : Type} (a k : String) (b : γ) (es : List (String × γ)) :
    ((k, b) :: es).lookup a = if a = k then some b else es.lookup a := by
  by_cases h : a = k
  · simp [List.lookup, h]
  · have hb : (a == k) = false := beq_eq_false_iff_ne.2 h
    simp [List.lookup, hb, h]

theorem lookup_eq_of_mem_unique {γ : Type} {l : String} {n : γ} :
    ∀ {ys : List (String × γ)}, (l, n) ∈ ys → (∀ m, (l, m) ∈ ys → m = n) →
      ys.lookup l = some n := by
  intro ys
  induction ys with
  | nil => simp
  | cons p ps ih =>
    intro hmem huniq
    obtain ⟨k, v⟩ := p
    rw [lookup_cons]
    by_cases hk : l = k
    · subst hk
      rw [if_pos rfl, huniq v (List.mem_cons_self _ _)]
    · rw [if_neg hk]
      refine ih ?_ (fun m hm => huniq m (List.mem_cons_of_mem _ hm))
      rcases List.mem_cons.1 hmem with h | h
      · exact absurd (congrArg Prod.fst h) hk
      · exact h

theorem lookup_mem_keys {r : Row} {k : String} {v : Json}
    (h : r.lookup k = some v) : k ∈ r.map Prod.fst := by
  induction r with
  | nil => simp [List.lookup] at h
  | cons p rest ih =>
    obtain ⟨a, b⟩ := p
    rw [lookup_cons] at h
    by_cases hk : k = a
    · subst hk; simp
    · rw [if_neg hk] at h
      simpa using Or.inr (ih h)

theorem insertBy_perm {α : Type} (le : α → α → Bool) (a : α) (l : List α) :
    (insertBy le a l).Perm (a :: l) := by
  induction l with
  | nil => exact List.Perm.refl _
  | cons b bs ih =>
    rw [insertBy]
    split
    · exact List.Perm.refl _
    · exact List.Perm.trans (List.Perm.cons b ih) (List.Perm.swap a b bs)

theorem sortBy_perm {α : Type} (le : α → α → Bool) (l : List α) :
    (sortBy le l).Perm l := by
  induction l with
  | nil => exact List.Perm.refl _
  | cons a as ih =>
    exact List.Perm.trans (insertBy_perm le a (sortBy le as)) (List.Perm.cons a ih)

theorem filterMap_lookup_eq_map {γ : Type} (cats : List String)
    (ys : List (String × γ)) (f : String → γ)
    (h : ∀ l ∈ cats, ys.lookup l = some (f l)) :
    cats.filterMap (fun l => (ys.lookup l).map (fun n => (l, n))) =
      cats.map (fun l => (l, f l)) := by
  induction cats with
  | nil => rfl
  | cons c cs ih =>
    rw [List.filterMap_cons, h c (List.mem_cons_self _ _)]
    simp only [Option.map_some', List.map_cons]
    rw [ih (fun l hl => h l (List.mem_cons_of_mem _ hl))]

theorem valueCounts_sum (df : DataFrame) (c : String) :
    ((valueCounts df c).map Prod.snd).sum = (nonNullCol df c).length := by
  unfold valueCounts
  have hperm := (sortBy_perm countDesc
    ((nonNullCol df c).dedup.map (fun v => (v, (nonNullCol df c).count v)))).map Prod.snd
  rw [hperm.sum_eq, List.map_map]
  exact List.sum_map_count_dedup_eq_length _

theorem filterMap_nonNull_length (c : String) :
    ∀ (rows : List Row), (∀ r ∈ rows, cellNonNull (r.lookup c) = true) →
      (rows.filterMap (fun r =>
        match r.lookup c with
        | some Json.null => none
        | none => none
        | some v => some v)).length = rows.length := by
  intro rows
  induction rows with
  | nil => simp
  | cons r rs ih =>
    intro h
    have hr := h r (List.mem_cons_self _ _)
    rw [List.filterMap_cons]
    cases hlookup : r.lookup c with
    | none => rw [hlookup] at hr; simp [cellNonNull] at hr
    | some v =>
      rw [hlookup] at hr
      cases v <;> simp_all [cellNonNull]

theorem mem_addCols {acc : List String} {r : Row} {k : String} :
    k ∈ addCols acc r ↔ k ∈ acc ∨ k ∈ r.map Prod.fst := by
  simp only [addCols, List.mem_append, List.mem_filter, decide_eq_true_eq]
  constructor
  · rintro (h | ⟨h, _⟩)
    · exact Or.inl h
    · exact Or.inr h
  · intro h
    by_cases hacc : k ∈ acc
    · exact Or.inl hacc
    · rcases h with h | h
      · exact Or.inl h
      · exact Or.inr ⟨h, hacc⟩

theorem mem_foldl_addCols {k : String} :
    ∀ (rows : List Row) (acc : List String),
      k ∈ rows.foldl addCols acc ↔ k ∈ acc ∨ ∃ r ∈ rows, k ∈ r.map Prod.fst := by
  intro rows
  induction rows with
  | nil => simp
  | cons r rest ih =>
    intro acc
    rw [List.foldl_cons, ih, mem_addCols]
    simp only [List.mem_cons]
    constructor
    · rintro ((h | h) | ⟨r', hr', h⟩)
      · exact Or.inl h
      · exact Or.inr ⟨r, Or.inl rfl, h⟩
      · exact Or.inr ⟨r', Or.inr hr', h⟩
    · rintro (h | ⟨r', hr' | hr', h⟩)
      · exact Or.inl (Or.inl h)
      · exact Or.inl (Or.inr (hr' ▸ h))
      · exact Or.inr ⟨r', hr', h⟩

theorem mem_colUnion {rows : List Row} {k : String} :
    k ∈ colUnion rows ↔ ∃ r ∈ rows, k ∈ r.map Prod.fst := by
  rw [colUnion, mem_foldl_addCols]
  simp

theorem lookup_isSome_mem_keys {r : Row} {k : String}
    (h : (r.lookup k).isSome = true) : k ∈ r.map Prod.fst := by
  cases hl : r.lookup k with
  | none => rw [hl] at h; simp at h
  | some v => exact lookup_mem_keys hl

theorem validApiRecord_parts {r : Json} (h : validApiRecord r = true) :
    isObj r = true ∧
    (∀ k ∈ sourceCols, ((flattenRecord r).lookup k).isSome = true) ∧
    (∃ n : Int, (flattenRecord r).lookup "dob.age" = some (Json.num n)) ∧
    (∀ k ∈ (["gender", "nat", "location.country"] : List String),
      hashableCell ((flattenRecord r).lookup k) = true) := by
  unfold validApiRecord at h
  simp only [Bool.and_eq_true, List.all_eq_true] at h
  obtain ⟨⟨⟨h1, h2⟩, h3⟩, h4⟩ := h
  refine ⟨h1, fun k hk => h2 k hk, ?_, fun k hk => h4 k hk⟩
  unfold recAge at h3
  cases hl : (flattenRecord r).lookup "dob.age" with
  | none => rw [hl] at h3; simp at h3
  | some v =>
    rw [hl] at h3
    cases v <;> simp at h3
    case num n => exact ⟨n, rfl⟩

theorem mapM_except_ok {α β ε : Type} (f : α → Except ε β) (g : α → β) :
    ∀ (l : List α), (∀ a ∈ l, f a = .ok (g a)) → l.mapM f = .ok (l.map g) := by
  intro l
  induction l with
  | nil => intro _; rfl
  | cons a as ih =>
    intro h
    rw [List.mapM_cons, h a (List.mem_cons_self _ _),
        ih (fun x hx => h x (List.mem_cons_of_mem _ hx))]
    rfl

theorem cleanRowOf_lookup_Edad (r : Row) :
    (cleanRowOf r).lookup "Edad" = some ((r.lookup "dob.age").getD Json.null) := rfl

theorem appendRango_lookup_Edad (r : Row) :
    (appendRango (cleanRowOf r)).lookup "Edad" =
      some ((r.lookup "dob.age").getD Json.null) := rfl

theorem appendRango_lookup_Rango (r : Row) :
    (appendRango (cleanRowOf r)).lookup "RangoEdad" =
      some (match (r.lookup "dob.age").getD Json.null with
            | Json.num n => binnedCell n
            | _ => Json.null) := rfl

theorem selectRename_sourceCols (df : DataFrame) :
    selectRename df sourceCols =
      ⟨["Genero", "Nombre", "Apellido", "Nacionalidad", "Edad", "Pais"],
       df.rows.map cleanRowOf⟩ := rfl

theorem cleanRowOf_lookup_Genero (r : Row) :
    (cleanRowOf r).lookup "Genero" = some ((r.lookup "gender").getD Json.null) := rfl

theorem cleanRowOf_lookup_Nacionalidad (r : Row) :
    (cleanRowOf r).lookup "Nacionalidad" =
      some ((r.lookup "nat").getD Json.null) := rfl

theorem cleanRowOf_lookup_Pais (r : Row) :
    (cleanRowOf r).lookup "Pais" =
      some ((r.lookup "location.country").getD Json.null) := rfl

theorem astypeCategory_ok {df : DataFrame} {c : String}
    (hmem : c ∈ df.columns) (hhash : columnHashable df c = true) :
    astypeCategory df c = .ok df := by
  unfold astypeCategory
  rw [if_pos hmem, if_pos hhash]

theorem columnHashable_clean (rows : List Row) (c src : String)
    (hlook : ∀ r, (cleanRowOf r).lookup c = some ((r.lookup src).getD Json.null))
    (hsh : ∀ r ∈ rows, hashableCell (r.lookup src) = true) :
    columnHashable ⟨["Genero", "Nombre", "Apellido", "Nacionalidad", "Edad", "Pais"],
                    rows.map cleanRowOf⟩ c = true := by
  unfold columnHashable
  apply List.all_eq_true.2
  intro r' hr'
  obtain ⟨r, hr, rfl⟩ := List.mem_map.1 hr'
  rw [hlook r]
  have hs := hsh r hr
  cases hl : r.lookup src with
  | none => rfl
  | some v =>
    rw [hl] at hs
    simpa using hs

theorem addRangoEdad_ok (rows : List Row)
    (hnum : ∀ r ∈ rows, ∃ n : Int, (cleanRowOf r).lookup "Edad" = some (Json.num n)) :
    addRangoEdad ⟨["Genero", "Nombre", "Apellido", "Nacionalidad", "Edad", "Pais"],
                  rows.map cleanRowOf⟩ =
      .ok ⟨["Genero", "Nombre", "Apellido", "Nacionalidad", "Edad", "Pais", "RangoEdad"],
           (rows.map cleanRowOf).map appendRango⟩ := by
  unfold addRangoEdad
  have hc : "Edad" ∈ (["Genero", "Nombre", "Apellido", "Nacionalidad", "Edad", "Pais"]
      : List String) := by decide
  rw [if_pos hc]
  have hmap : (rows.map cleanRowOf).mapM
      (fun r => do
        let c ← cutCell ((r.lookup "Edad").getD Json.null)
        pure (r ++ [("RangoEdad", c)])) =
      Except.ok ((rows.map cleanRowOf).map appendRango) := by
    apply mapM_except_ok
    intro a ha
    obtain ⟨r, hr, rfl⟩ := List.mem_map.1 ha
    obtain ⟨n, hn⟩ := hnum r hr
    rw [appendRango, hn]
    rfl
  rw [hmap]
  rfl

theorem binnedCell_str_iff (n : Int) :
    (∃ l, binnedCell n = Json.str l) ↔ (18 ≤ n ∧ n < 100) := by
  rw [← rangoEdad_isSome_iff]
  unfold binnedCell
  cases h : rangoEdad n with
  | some l => simp
  | none => simp

/-! ## Claims -/

/-- C1: the age-binning is a pure function of the numeric age: every age
in `[18,100)` is mapped to exactly one of the six labels of `LABELS`
(with `29 ↦ 18-29`, `30 ↦ 30-39`, `69 ↦ 60-69`, `70 ↦ 70+`), and every
age outside `[18,100)` (such as 17 or 100) is mapped to the undefined
bucket `none` rather than to an error. -/
theorem C1_age_binning (age : Int) :
    (18 ≤ age ∧ age < 100 → ∃ l, rangoEdad age = some l ∧ l ∈ LABELS) ∧
    (¬ (18 ≤ age ∧ age < 100) → rangoEdad age = none) ∧
    rangoEdad 29 = some "18-29" ∧ rangoEdad 30 = some "30-39" ∧
    rangoEdad 69 = some "60-69" ∧ rangoEdad 70 = some "70+" ∧
    rangoEdad 17 = none ∧ rangoEdad 100 = none := by
  refine ⟨?_, ?_, rfl, rfl, rfl, rfl, rfl, rfl⟩
  · intro h
    rw [rangoEdad_eq]
    split_ifs <;> first | exact ⟨_, rfl, by decide⟩ | omega
  · intro h
    rw [rangoEdad_eq]
    split_ifs <;> first | rfl | omega

/-- Witness for C1: age 42 gets one of the six labels, age 101 gets the
undefined bucket. -/
theorem C1_age_binning_witness :
    (∃ l, rangoEdad 42 = some l ∧ l ∈ LABELS) ∧ rangoEdad 101 = none :=
  ⟨(C1_age_binning 42).1 (by decide), ((C1_age_binning 101).2.1) (by decide)⟩

/-- C8: the pipeline introduces no run-to-run variation of its own: the
transform and statistics stages ignore the run environment (wall clock,
OS randomness), so two runs on equal fetched bodies produce identical
clean tables and identical statistics. -/
theorem C8_no_run_variation (e₁ e₂ : RunEnv)
    (data : Option (List (String × Json))) (df : DataFrame) :
    transformRun e₁ data = transformRun e₂ data ∧
    statisticsRun e₁ df = statisticsRun e₂ df :=
  ⟨rfl, rfl⟩

/-- C9: the Aggregator has no error conditions on an empty clean table:
with zero rows (and the `Edad`/`Genero` columns present, as `transform`
guarantees) it returns an undefined (`none`/`NaN`) overall mean age, an
empty gender-count series and an empty per-gender mean series, rather
than raising. -/
theorem C9_empty_table (cols : List String)
    (hE : "Edad" ∈ cols) (hG : "Genero" ∈ cols) :
    calculate_statistics ⟨cols, []⟩ =
      .ok { average_age := none, gender_counts := [], avg_age_by_gender := [] } := by
  unfold calculate_statistics
  rw [if_pos hE, if_pos hG]
  rfl

/-- C10: the age-range count series of the third chart
(`value_counts().sort_index()` on the categorical `RangoEdad` column) is
ordered by the buckets' natural sorted label order — exactly `LABELS` —
and always holds one entry per bucket, whose count is the number of rows
in that bucket (0 when no row falls into it). -/
theorem C10_chart3_series (df : DataFrame) :
    chart3Series df = LABELS.map (fun l => (l, countCell df "RangoEdad" l)) ∧
    (chart3Series df).map Prod.fst = LABELS := by
  have key : ∀ l ∈ LABELS,
      (catValueCounts df "RangoEdad" LABELS).lookup l =
        some (countCell df "RangoEdad" l) := by
    intro l hl
    apply lookup_eq_of_mem_unique
    · exact ((sortBy_perm _ _).mem_iff).2
        (List.mem_map_of_mem (fun x => (x, countCell df "RangoEdad" x)) hl)
    · intro m hm
      have hmem := ((sortBy_perm _ _).mem_iff).1 hm
      obtain ⟨l', _, heq⟩ := List.mem_map.1 hmem
      have h1 : l' = l := congrArg Prod.fst heq
      have h2 : countCell df "RangoEdad" l' = m := congrArg Prod.snd heq
      rw [← h2, h1]
  have hmap : chart3Series df = LABELS.map (fun l => (l, countCell df "RangoEdad" l)) :=
    filterMap_lookup_eq_map LABELS _ _ key
  refine ⟨hmap, ?_⟩
  rw [hmap, List.map_map]
  rfl

theorem transform_reduce {d : List (String × Json)} {v : Json} {df : DataFrame}
    (hne : d.isEmpty = false) (hres : d.lookup "results" = some v)
    (hnorm : jsonNormalize v = .ok df) :
    transform (some d) = transformNormalized df := by
  simp [transform, hne, hres, hnorm]

/-- C4 counterexample: for the fetched body `{"results": null}` the
pipeline does not fail with the controlled no-valid-data signal —
normalizing `None` raises an unhandled `NotImplementedError` instead. -/
theorem C4_counterexample :
    transform (some [("results", Json.null)]) = .fault .notImplementedError ∧
    transform (some [("results", Json.null)]) ≠ .noValidData :=
  ⟨rfl, by decide⟩

/-- C4 (amended): a `None` body, the empty body `{}` and any body
without the `results` key fail with the controlled `no valid data`
signal, and in all these cases — and also for `{"results": null}` — no
clean-table or chart outputs are produced; however `{"results": null}`
itself does not fail in a controlled way: it raises an unhandled
`NotImplementedError` out of normalization. -/
theorem C4_missing_results (env : WriteEnv) (d : List (String × Json))
    (hd : d.lookup "results" = none) :
    transform none = .noValidData ∧
    transform (some []) = .noValidData ∧
    transform (some d) = .noValidData ∧
    transform (some [("results", Json.null)]) = .fault .notImplementedError ∧
    (Event.wroteCleanCsv ∉ runMain (some []) env ∧
     Event.madePlots ∉ runMain (some []) env) ∧
    (Event.wroteCleanCsv ∉ runMain (some [("results", Json.null)]) env ∧
     Event.madePlots ∉ runMain (some [("results", Json.null)]) env) ∧
    (Event.wroteCleanCsv ∉ runMain (some d) env ∧
     Event.madePlots ∉ runMain (some d) env) := by
  have htr : transform (some d) = .noValidData := by
    simp [transform, hd]
  have h1 : runMain (some []) env = [.loggedFetchFailure] := rfl
  have h2 : runMain (some [("results", Json.null)]) env =
      [.loggedRawWriteError, .crashedUnhandled] := rfl
  refine ⟨rfl, rfl, htr, rfl, ?_, ?_, ?_⟩
  · rw [h1]; simp
  · rw [h2]; simp
  · cases d with
    | nil => simp [runMain]
    | cons p ps =>
      have hsave : saveRawUsers (p :: ps) env = [.loggedRawWriteError] := by
        simp [saveRawUsers, hd]
      simp [runMain, hsave, htr]

/-- Witness for C4 (amended) at a body `{"seed": "1234"}` without a
`results` key. -/
theorem C4_missing_results_witness :
    transform (some [("seed", Json.str "1234")]) = .noValidData ∧
    Event.madePlots ∉ runMain (some [("seed", Json.str "1234")]) ⟨false, false, false⟩ := by
  have h := C4_missing_results ⟨false, false, false⟩ [("seed", Json.str "1234")] rfl
  exact ⟨h.2.2.1, h.2.2.2.2.2.2.2⟩

theorem saveRawUsers_cases (data : List (String × Json)) (env : WriteEnv) :
    saveRawUsers data env = [.loggedRawWriteError] ∨
    saveRawUsers data env = [.wroteRawCsv] := by
  rcases hres : data.lookup "results" with _ | v
  · left; simp [saveRawUsers, hres]
  · rcases hn : jsonNormalize v with e | df
    · left; simp [saveRawUsers, hres, hn]
    · cases h : env.rawWriteFails
      · right; simp [saveRawUsers, hres, hn, h]
      · left; simp [saveRawUsers, hres, hn, h]

/-- C2: for every valid API response — a non-empty body whose `results`
array is non-empty and whose records each flatten to all six source
columns, with a numeric `dob.age` and scalar (hashable) gender,
nationality and country values as the real API produces — `transform`
returns a clean table with exactly one row per input record, in order
(row `i` carries the age of record `i`), and row `i`'s `RangoEdad` cell
is populated (a label string) iff record `i`'s age lies in `[18,100)`. -/
theorem C2_row_preservation (d : List (String × Json)) (a : JsonArray)
    (hne : d.isEmpty = false)
    (hres : d.lookup "results" = some (Json.arr a))
    (hrecs : a.toList ≠ [])
    (hvalid : ∀ r ∈ a.toList, validApiRecord r = true) :
    ∃ df : DataFrame, transform (some d) = .ok df ∧
      df.rows.length = a.toList.length ∧
      ∀ i (hi : i < a.toList.length), ∃ n : Int,
        recAge (a.toList.get ⟨i, hi⟩) = some n ∧
        ∃ hdi : i < df.rows.length,
          (df.rows.get ⟨i, hdi⟩).lookup "Edad" = some (Json.num n) ∧
          (df.rows.get ⟨i, hdi⟩).lookup "RangoEdad" = some (binnedCell n) ∧
          ((∃ l, (df.rows.get ⟨i, hdi⟩).lookup "RangoEdad" = some (Json.str l)) ↔
            (18 ≤ n ∧ n < 100)) := by
  have hall : a.toList.all isObj = true :=
    List.all_eq_true.2 (fun r hr => (validApiRecord_parts (hvalid r hr)).1)
  have hnorm : jsonNormalize (Json.arr a) =
      .ok ⟨colUnion (a.toList.map flattenRecord), a.toList.map flattenRecord⟩ := by
    simp [jsonNormalize, hall]
  have hcols : ∀ k ∈ sourceCols, k ∈ colUnion (a.toList.map flattenRecord) := by
    intro k hk
    obtain ⟨r0, hr0⟩ := List.exists_mem_of_ne_nil a.toList hrecs
    refine mem_colUnion.2 ⟨flattenRecord r0, List.mem_map_of_mem _ hr0, ?_⟩
    exact lookup_isSome_mem_keys ((validApiRecord_parts (hvalid r0 hr0)).2.1 k hk)
  have hfilter : (RENAME_COLS.map Prod.fst).filter
      (fun k => k ∈ colUnion (a.toList.map flattenRecord)) = sourceCols :=
    List.filter_eq_self.2 (fun k hk => decide_eq_true (hcols k hk))
  have hnum : ∀ r ∈ a.toList.map flattenRecord,
      ∃ n : Int, (cleanRowOf r).lookup "Edad" = some (Json.num n) := by
    intro r hr
    obtain ⟨rec, hrec, rfl⟩ := List.mem_map.1 hr
    obtain ⟨n, hn⟩ := (validApiRecord_parts (hvalid rec hrec)).2.2.1
    exact ⟨n, by rw [cleanRowOf_lookup_Edad, hn]; rfl⟩
  have hshG : ∀ r ∈ a.toList.map flattenRecord,
      hashableCell (r.lookup "gender") = true := by
    intro r hr
    obtain ⟨rec, hrec, rfl⟩ := List.mem_map.1 hr
    exact (validApiRecord_parts (hvalid rec hrec)).2.2.2 "gender" (by decide)
  have hshN : ∀ r ∈ a.toList.map flattenRecord,
      hashableCell (r.lookup "nat") = true := by
    intro r hr
    obtain ⟨rec, hrec, rfl⟩ := List.mem_map.1 hr
    exact (validApiRecord_parts (hvalid rec hrec)).2.2.2 "nat" (by decide)
  have hshP : ∀ r ∈ a.toList.map flattenRecord,
      hashableCell (r.lookup "location.country") = true := by
    intro r hr
    obtain ⟨rec, hrec, rfl⟩ := List.mem_map.1 hr
    exact (validApiRecord_parts (hvalid rec hrec)).2.2.2 "location.country" (by decide)
  have hTN : transformNormalized ⟨colUnion (a.toList.map flattenRecord),
      a.toList.map flattenRecord⟩ =
      .ok ⟨["Genero", "Nombre", "Apellido", "Nacionalidad", "Edad", "Pais", "RangoEdad"],
           ((a.toList.map flattenRecord).map cleanRowOf).map appendRango⟩ := by
    unfold transformNormalized
    dsimp only
    rw [hfilter]
    rw [if_pos (show "dob.age" ∈ sourceCols by decide)]
    rw [selectRename_sourceCols]
    dsimp only
    rw [astypeCategory_ok (show "Genero" ∈ (["Genero", "Nombre", "Apellido", "Nacionalidad", "Edad", "Pais"] : List String) by decide)
          (columnHashable_clean _ "Genero" "gender" (fun _ => rfl) hshG)]
    dsimp only
    rw [astypeCategory_ok (show "Nacionalidad" ∈ (["Genero", "Nombre", "Apellido", "Nacionalidad", "Edad", "Pais"] : List String) by decide)
          (columnHashable_clean _ "Nacionalidad" "nat" (fun _ => rfl) hshN)]
    dsimp only
    rw [astypeCategory_ok (show "Pais" ∈ (["Genero", "Nombre", "Apellido", "Nacionalidad", "Edad", "Pais"] : List String) by decide)
          (columnHashable_clean _ "Pais" "location.country" (fun _ => rfl) hshP)]
    dsimp only
    rw [addRangoEdad_ok _ hnum]
  refine ⟨_, (transform_reduce hne hres hnorm).trans hTN, by simp, ?_⟩
  intro i hi
  obtain ⟨n, hn⟩ :=
    (validApiRecord_parts (hvalid (a.toList.get ⟨i, hi⟩) (a.toList.get_mem _ _))).2.2.1
  have hnG : (flattenRecord (a.toList[i])).lookup "dob.age" = some (Json.num n) := by
    simpa using hn
  refine ⟨n, by simp [recAge, hnG], ?_⟩
  have hdi : i < (((a.toList.map flattenRecord).map cleanRowOf).map appendRango).length := by
    simpa using hi
  refine ⟨hdi, ?_⟩
  have hget : (((a.toList.map flattenRecord).map cleanRowOf).map appendRango).get ⟨i, hdi⟩ =
      appendRango (cleanRowOf (flattenRecord (a.toList.get ⟨i, hi⟩))) := by
    simp [List.getElem_map]
  rw [hget, appendRango_lookup_Edad, appendRango_lookup_Rango, hn]
  refine ⟨rfl, rfl, ?_⟩
  simpa using binnedCell_str_iff n

/-- Witness for C2 at a one-record body. -/
theorem C2_row_preservation_witness :
    ∃ df : DataFrame,
      transform (some (sampleBody [sampleRecordFull])) = .ok df ∧
      df.rows.length = (jarr [sampleRecordFull]).toList.length := by
  obtain ⟨df, h1, h2, _⟩ := C2_row_preservation (sampleBody [sampleRecordFull])
    (jarr [sampleRecordFull]) rfl rfl (by decide) (by decide)
  exact ⟨df, h1, h2⟩

/-- C3 counterexample: with `dob.age` present but the `gender` source
column absent, the Transformer does not tolerate the absence: reading
`df_clean["Genero"]` for the `astype("category")` cast raises an
unhandled `KeyError` instead of returning a clean table. -/
theorem C3_counterexample :
    transform (some (sampleBody [sampleRecordNoGender])) = .fault (.keyError "Genero") ∧
    isOkResult (transform (some (sampleBody [sampleRecordNoGender]))) = false :=
  ⟨rfl, rfl⟩

/-- C3 (amended): after a successful normalization the Transformer fails
with the missing-age-column error exactly when `dob.age` is absent from
the normalized columns; when `dob.age` is present, a missing
`name.first`/`name.last` is tolerated (a clean table is still returned),
but a missing `gender`, `nat` or `location.country` is not: the
`astype("category")` column read raises an unhandled `KeyError`. -/
theorem C3_age_column_check (d : List (String × Json)) (v : Json) (df : DataFrame)
    (hne : d.isEmpty = false) (hres : d.lookup "results" = some v)
    (hnorm : jsonNormalize v = .ok df) :
    (transform (some d) = .ageColumnMissing ↔ "dob.age" ∉ df.columns) ∧
    isOkResult (transform (some (sampleBody [sampleRecordNoNames]))) = true ∧
    transform (some (sampleBody [sampleRecordNoGender])) = .fault (.keyError "Genero") ∧
    transform (some (sampleBody [sampleRecordNoNat])) = .fault (.keyError "Nacionalidad") ∧
    transform (some (sampleBody [sampleRecordNoCountry])) = .fault (.keyError "Pais") := by
  refine ⟨?_, rfl, rfl, rfl, rfl⟩
  rw [transform_reduce hne hres hnorm]
  have hfilter : "dob.age" ∈ (RENAME_COLS.map Prod.fst).filter
      (fun k => k ∈ df.columns) ↔ "dob.age" ∈ df.columns := by
    simp [List.mem_filter, RENAME_COLS]
  constructor
  · intro h hmem
    unfold transformNormalized at h
    rw [if_pos (hfilter.2 hmem)] at h
    simp only [] at h
    split at h
    · simp at h
    · split at h
      · simp at h
      · split at h
        · simp at h
        · split at h <;> simp at h
  · intro h
    unfold transformNormalized
    rw [if_neg (fun hmem => h (hfilter.1 hmem))]

/-- Witness for C3 (amended) at a single record missing `dob.age`. -/
theorem C3_age_column_check_witness :
    transform (some (sampleBody [sampleRecordNoAge])) = .ageColumnMissing := by
  have h := C3_age_column_check (sampleBody [sampleRecordNoAge])
    (Json.arr (jarr [sampleRecordNoAge]))
    ⟨colUnion [flattenRecord sampleRecordNoAge], [flattenRecord sampleRecordNoAge]⟩
    rfl rfl rfl
  exact (h.1).2 (by decide)

/-- C5 counterexample: with a structurally good fetched body, a failure
of the clean-table write is not caught per-file: the run crashes
unhandled and neither the statistics write nor the visualizer runs, even
though the raw write succeeded. -/
theorem C5_counterexample :
    runMain (some (sampleBody [sampleRecordFull])) ⟨false, true, false⟩ =
      [.wroteRawCsv, .crashedUnhandled] ∧
    Event.madePlots ∉ runMain (some (sampleBody [sampleRecordFull])) ⟨false, true, false⟩ ∧
    Event.wroteStatsCsv ∉ runMain (some (sampleBody [sampleRecordFull])) ⟨false, true, false⟩ :=
  ⟨rfl, by decide, by decide⟩

/-- C5 (amended): the raw-table write and the statistics write are each
wrapped in their own `try/except`, so their failures are logged and the
remaining stages (including the visualizer) still run; but the
clean-table write on line 233 is not protected — its failure is an
unhandled exception that aborts the statistics, the statistics write and
the visualizer. -/
theorem C5_write_failure_isolation (data : List (String × Json)) (df : DataFrame)
    (s : Stats) (env : WriteEnv)
    (hne : data.isEmpty = false)
    (ht : transform (some data) = .ok df)
    (hs : calculate_statistics df = .ok s) :
    (env.cleanWriteFails = false →
       runMain (some data) env =
         saveRawUsers data env ++ [.wroteCleanCsv, .printedStats] ++
           saveStatisticsEvents env ++ [.madePlots] ∧
       Event.madePlots ∈ runMain (some data) env ∧
       Event.wroteCleanCsv ∈ runMain (some data) env) ∧
    (env.cleanWriteFails = true →
       runMain (some data) env = saveRawUsers data env ++ [.crashedUnhandled] ∧
       Event.madePlots ∉ runMain (some data) env ∧
       Event.wroteStatsCsv ∉ runMain (some data) env ∧
       Event.crashedUnhandled ∈ runMain (some data) env) := by
  constructor
  · intro hclean
    have hrun : runMain (some data) env =
        saveRawUsers data env ++ [.wroteCleanCsv, .printedStats] ++
          saveStatisticsEvents env ++ [.madePlots] := by
      simp [runMain, hne, ht, hclean, hs]
    refine ⟨hrun, ?_, ?_⟩ <;> rw [hrun] <;> simp
  · intro hclean
    have hrun : runMain (some data) env = saveRawUsers data env ++ [.crashedUnhandled] := by
      simp [runMain, hne, ht, hclean]
    refine ⟨hrun, ?_, ?_, ?_⟩ <;> rw [hrun] <;>
      rcases saveRawUsers_cases data env with h | h <;> simp [h]

/-- Witness for C5 (amended): with the raw and statistics writes both
failing (and the clean write succeeding), the visualizer still runs. -/
theorem C5_write_failure_isolation_witness :
    Event.madePlots ∈ runMain (some (sampleBody [sampleRecordFull])) ⟨true, false, true⟩ := by
  have h := C5_write_failure_isolation (sampleBody [sampleRecordFull])
    sampleCleanDf sampleCleanStats ⟨true, false, true⟩ rfl rfl
    (by with_unfolding_all rfl)
  exact (h.1 rfl).2.1

/-- C6 counterexample: a clean table produced by `transform` from two
valid-aged records, one of which lacks the `gender` field, has 2 rows but
per-gender counts summing to 1 (`value_counts` drops the `NaN` gender),
so the counts do not sum to the row count. -/
theorem C6_counterexample :
    ((cleanTableOf (transform (some (sampleBody [sampleRecordFull, sampleRecordNoGender])))).map
       (fun df => df.rows.length) = some 2) ∧
    (((cleanTableOf (transform (some (sampleBody [sampleRecordFull, sampleRecordNoGender])))).bind
       (fun df => (calculate_statistics df).toOption)).map
       (fun s => (s.gender_counts.map Prod.snd).sum) = some 1) ∧
    some (1 : Nat) ≠ some (2 : Nat) := by
  refine ⟨rfl, rfl, by decide⟩

/-- C6 (amended): for every clean table, the Aggregator's per-gender
counts sum to the number of rows with a non-`NaN` `Genero` cell; in
particular they sum to the full row count whenever every row has a
non-`NaN` `Genero` (e.g. when every fetched record carried a gender). -/
theorem C6_gender_counts_sum (df : DataFrame) (s : Stats)
    (h : calculate_statistics df = .ok s) :
    ((s.gender_counts.map Prod.snd).sum = (nonNullCol df "Genero").length) ∧
    ((∀ r ∈ df.rows, cellNonNull (r.lookup "Genero") = true) →
      (s.gender_counts.map Prod.snd).sum = df.rows.length) := by
  unfold calculate_statistics at h
  split_ifs at h
  obtain rfl : _ = s := Except.ok.inj h
  refine ⟨valueCounts_sum df "Genero", fun hall => ?_⟩
  rw [valueCounts_sum df "Genero"]
  exact filterMap_nonNull_length "Genero" df.rows hall

/-- Witness for C6 (amended) at `sampleDf`. -/
theorem C6_gender_counts_sum_witness :
    ((sampleStats.gender_counts.map Prod.snd).sum = (nonNullCol sampleDf "Genero").length) ∧
    ((sampleStats.gender_counts.map Prod.snd).sum = sampleDf.rows.length) :=
  ⟨(C6_gender_counts_sum sampleDf sampleStats (by with_unfolding_all rfl)).1,
   (C6_gender_counts_sum sampleDf sampleStats (by with_unfolding_all rfl)).2 (by decide)⟩

/-- C7: in the long-form statistics output, every serialized numeric
value is a multiple of 1/100 (exactly 2 decimal places); the overall
average row carries `round2` of the average age, and every per-gender
mean row carries `round2` of that gender's mean. -/
theorem C7_statistics_rounding (s : Stats) :
    ((statisticsCsvRows s).head? =
      some ⟨"Edad_Media_Total", Json.str "General", s.average_age.map round2⟩) ∧
    (∀ g m, (g, m) ∈ s.avg_age_by_gender →
      (⟨"Edad_Media_Genero", g, m.map round2⟩ : StatRow) ∈ statisticsCsvRows s) ∧
    (∀ r ∈ statisticsCsvRows s, ∀ v, r.Valor = some v → ∃ k : Int, v = (k : Rat) / 100) := by
  refine ⟨rfl, ?_, ?_⟩
  · intro g m hm
    refine List.mem_map.2 ⟨⟨"Edad_Media_Genero", g, m⟩, ?_, rfl⟩
    exact List.mem_cons_of_mem _
      (List.mem_append_right _ (List.mem_map.2 ⟨(g, m), hm, rfl⟩))
  · intro r hr v hv
    obtain ⟨r0, _, rfl⟩ := List.mem_map.1 hr
    cases h0 : r0.Valor with
    | none => simp [h0] at hv
    | some v0 =>
      simp only [h0, Option.map_some'] at hv
      obtain rfl : round2 v0 = v := Option.some.inj hv
      exact ⟨roundHalfEven (v0 * 100), rfl⟩

/-- Witness for C7 at `sampleStats`. -/
theorem C7_statistics_rounding_witness :
    ((⟨"Edad_Media_Genero", Json.str "f", Option.map round2 (some 20)⟩ : StatRow)
        ∈ statisticsCsvRows sampleStats) ∧
    (∃ k : Int, (20 : Rat) = (k : Rat) / 100) :=
  ⟨(C7_statistics_rounding sampleStats).2.1 (Json.str "f") (some 20) (by decide),
   (C7_statistics_rounding sampleStats).2.2
     ⟨"Edad_Media_Total", Json.str "General", some 20⟩ (by with_unfolding_all decide)
     20 (by decide)⟩

/-- Witness for C9 at the column list of a transform-produced table. -/
theorem C9_empty_table_witness :
    calculate_statistics
        ⟨["Genero", "Nombre", "Apellido", "Nacionalidad", "Edad", "Pais", "RangoEdad"], []⟩ =
      .ok { average_age := none, gender_counts := [], avg_age_by_gender := [] } :=
  C9_empty_table _ (by decide) (by decide)

end ETL
